import Mathlib

set_option maxHeartbeats 2000000
set_option maxRecDepth 4000

/-!
Shallow embedding of go_networks/generate_v2.py.

The statement table (an INDRA SIF dump, a pandas DataFrame) is embedded as a
list of rows; pandas groupby/aggregate operations become explicit list
operations; Python dicts become association lists with Python-dict update
semantics (updating an existing key keeps its position, a new key is appended);
raising an exception is modelled by returning none.  The helper module
go_networks.util (set_pair, set_directed, set_reverse_directed) is not part of
the sources, so those helpers are modelled from the spec, as marked on each.
-/

/-- One row of the statement table, with the columns generate_v2.py reads:
agA_ns, agA_id, agA_name, agB_ns, agB_id, agB_name, stmt_type, stmt_hash,
evidence_count. -/
structure SifRow where
  agA_ns : String
  agA_id : String
  agA_name : String
  agB_ns : String
  agB_id : String
  agB_name : String
  stmt_type : String
  stmt_hash : Int
  evidence_count : Nat
deriving DecidableEq

/-- Entity from go_networks.data_models: a (namespace, id, name) triple. -/
structure Entity where
  ns : String
  id : String
  name : String
deriving DecidableEq

/-- PairProperty from go_networks.data_models, with the fields filled in by
get_pair_properties.  Evidence-count maps and the hash map are association
lists keyed by statement type. -/
structure PairProperty where
  a : Entity
  b : Entity
  order : String × String
  hashes : List (String × List Int)
  directed : Bool
  reverse_directed : Bool
  directed_evidence_count : List (String × Nat)
  reverse_directed_evidence_count : List (String × Nat)
  undirected_evidence_count : List (String × Nat)
deriving DecidableEq

/-- The pair-property index keyed by the canonical pair. -/
abbrev PropsMap := List ((String × String) × PairProperty)

/-- Lexicographic comparison of character lists by code point, the order
Python uses to compare strings. -/
def charListLt : List Char → List Char → Bool
  | _, [] => false
  | [], _ :: _ => true
  | a :: as, b :: bs =>
    if a.toNat < b.toNat then true
    else if b.toNat < a.toNat then false
    else charListLt as bs

/-- Python string comparison a < b (lexicographic by code point). -/
def str_lt (a b : String) : Bool := charListLt a.data b.data

/-- Python str.startswith: the first argument starts with the second. -/
def str_startswith (s pre : String) : Bool := List.isPrefixOf pre.data s.data

/-- Remove duplicates keeping the first occurrence of each element, the key
order a pandas groupby produces up to sorting (only the induced key SET
matters to the claims, never the order). -/
def dedupFirstAux [BEq α] (seen : List α) : List α → List α
  | [] => []
  | a :: l =>
    if seen.contains a then dedupFirstAux seen l
    else a :: dedupFirstAux (a :: seen) l

/-- Remove duplicates from a list, keeping first occurrences. -/
def dedupFirst [BEq α] (l : List α) : List α := dedupFirstAux [] l

/-- Python dict assignment d[k] = x: replace the value at the first entry
holding k, or append a new entry when k is absent. -/
def dictInsert [BEq κ] : List (κ × ν) → κ → ν → List (κ × ν)
  | [], k, x => [(k, x)]
  | e :: rest, k, x =>
    if e.1 == k then (k, x) :: rest else e :: dictInsert rest k x

/-- Modelled from the spec: the directed-type vocabulary (an externally
configured set of statement-type tags; go_networks.util is not among the
sources).  The spec names Activation and Inhibition as directed types and
Complex as undirected; any type outside this list is treated as undirected. -/
def DIRECTED_TYPES : List String :=
  ["Activation", "Inhibition", "IncreaseAmount", "DecreaseAmount",
   "Phosphorylation", "Dephosphorylation"]

/-- Modelled from the spec: set_pair (go_networks.util is not among the
sources).  The canonical pair of a row is the unordered pair of agent names
with a fixed lexicographically sorted order. -/
def set_pair (r : SifRow) : String × String :=
  if str_lt r.agB_name r.agA_name then (r.agB_name, r.agA_name)
  else (r.agA_name, r.agB_name)

/-- Modelled from the spec: set_directed (go_networks.util is not among the
sources).  A row classifies forward when its statement type is in the
directed vocabulary and its subject name equals the canonical pair's first
element. -/
def set_directed (r : SifRow) : Bool :=
  DIRECTED_TYPES.contains r.stmt_type && r.agA_name == (set_pair r).1

/-- Modelled from the spec: set_reverse_directed (go_networks.util is not
among the sources).  A row classifies reverse when its statement type is
directed and its subject name equals the canonical pair's second element
(and it did not already classify forward). -/
def set_reverse_directed (r : SifRow) : Bool :=
  DIRECTED_TYPES.contains r.stmt_type && r.agA_name == (set_pair r).2 &&
    !(r.agA_name == (set_pair r).1)

/-- filter_to_hgnc: keep only rows whose both agent namespaces are HGNC
(the pandas query agA_ns == HGNC and agB_ns == HGNC). -/
def filter_to_hgnc (sif_df : List SifRow) : List SifRow :=
  sif_df.filter (fun r => r.agA_ns == "HGNC" && r.agB_ns == "HGNC")

/-- The groupby on pair with aggregate any over the reverse_directed and
directed columns: for each canonical pair occurring in the table, whether
any row of the pair classifies forward and whether any classifies reverse.
Stored as (pair, (directed, reverse_directed)). -/
def dir_dict (sif_df : List SifRow) : List ((String × String) × (Bool × Bool)) :=
  (dedupFirst (sif_df.map set_pair)).map (fun pr =>
    let grp := sif_df.filter (fun r => set_pair r == pr)
    (pr, (grp.any set_directed, grp.any set_reverse_directed)))

/-- A groupby on (pair, stmt_type) over the rows passing the given filter,
summing the evidence_count column: the tuple-keyed dicts dir_ev_count_dict,
rev_dir_count_dict and undir_count_dict of generate_props. -/
def ev_count_tuple_dict (sif_df : List SifRow) (flt : SifRow → Bool) :
    List (((String × String) × String) × Nat) :=
  let sel := sif_df.filter flt
  (dedupFirst (sel.map (fun r => (set_pair r, r.stmt_type)))).map (fun k =>
    (k, ((sel.filter (fun r => (set_pair r, r.stmt_type) == k)).map
      (fun r => r.evidence_count)).sum))

/-- Evidence counts per (pair, stmt_type) over the rows whose directed
column is set (sif_df with the directed mask). -/
def dir_ev_count_dict (sif_df : List SifRow) :
    List (((String × String) × String) × Nat) :=
  ev_count_tuple_dict sif_df set_directed

/-- Evidence counts per (pair, stmt_type) over the rows whose
reverse_directed column is set. -/
def rev_dir_count_dict (sif_df : List SifRow) :
    List (((String × String) × String) × Nat) :=
  ev_count_tuple_dict sif_df set_reverse_directed

/-- Evidence counts per (pair, stmt_type) over the rows whose directed
column is False (the sif_df.directed == False mask of the source). -/
def undir_count_dict (sif_df : List SifRow) :
    List (((String × String) × String) × Nat) :=
  ev_count_tuple_dict sif_df (fun r => !(set_directed r))

/-- The local helper _get_nested_dict of generate_props: transform a
tuple-keyed map with keys (p, s) into a nested map p to (s to value). -/
def get_nested_dict [BEq κ] [BEq σ] (tuple_dict : List ((κ × σ) × ν)) :
    List (κ × List (σ × ν)) :=
  (dedupFirst (tuple_dict.map (fun x => x.1.1))).map (fun p =>
    (p, (tuple_dict.filter (fun x => x.1.1 == p)).map (fun x => (x.1.2, x.2))))

/-- The groupby on (pair, stmt_type) aggregating the stmt_hash column into a
list (hash_type_td of generate_props). -/
def hash_type_td (sif_df : List SifRow) :
    List (((String × String) × String) × List Int) :=
  (dedupFirst (sif_df.map (fun r => (set_pair r, r.stmt_type)))).map (fun k =>
    (k, (sif_df.filter (fun r => (set_pair r, r.stmt_type) == k)).map
      (fun r => r.stmt_hash)))

/-- The set of (ns, id, name) identity triples seen for either agent column,
set(zip(agA_ns, agA_id, agA_name)).union(set(zip(agB...))) of the source.
Python set iteration order is unspecified; it is modelled here as the first
occurrence order of the agA triples followed by the agB triples. -/
def ns_id_name_tups (sif_df : List SifRow) : List (String × String × String) :=
  dedupFirst ((sif_df.map (fun r => (r.agA_ns, r.agA_id, r.agA_name))) ++
    (sif_df.map (fun r => (r.agB_ns, r.agB_id, r.agB_name))))

/-- The dict comprehension building the name to (ns, id) mapping: entries are
inserted in iteration order, so a later tuple for the same name overwrites an
earlier one (Python dict semantics). -/
def pair_entity_mapping (tups : List (String × String × String)) :
    List (String × (String × String)) :=
  tups.foldl (fun d t => dictInsert d t.2.2 (t.1, t.2.1)) []

/-- get_pair_properties of the source: assemble one PairProperty per pair of
dir_dict, looking the pair up in the three evidence-count dicts (with an
empty dict as default, dict.get), in the type-hash dict (direct indexing)
and both member names up in the entity dict (direct indexing).  A failed
direct indexing raises KeyError in Python, which aborts the whole call;
the sequence of fallible lookups is modelled with Option.bind, so any
failure makes the whole call return none. -/
def get_pair_properties
    (dd : List ((String × String) × (Bool × Bool)))
    (dir_ev_count rev_dir_ev_count undir_ev_count :
      List ((String × String) × List (String × Nat)))
    (type_hash_list : List ((String × String) × List (String × List Int)))
    (pair_entity_dict : List (String × (String × String))) :
    Option PropsMap :=
  match dd with
  | [] => some []
  | (pr, flags) :: rest =>
    (List.lookup pr type_hash_list).bind (fun thd =>
      (List.lookup pr.1 pair_entity_dict).bind (fun aent =>
        (List.lookup pr.2 pair_entity_dict).bind (fun bent =>
          (get_pair_properties rest dir_ev_count rev_dir_ev_count undir_ev_count
              type_hash_list pair_entity_dict).map (fun m =>
            (pr, ⟨⟨aent.1, aent.2, pr.1⟩, ⟨bent.1, bent.2, pr.2⟩, pr, thd,
              flags.1, flags.2,
              (List.lookup pr dir_ev_count).getD [],
              (List.lookup pr rev_dir_ev_count).getD [],
              (List.lookup pr undir_ev_count).getD []⟩) :: m))))

/-- The compute branch of generate_props (taken when no properties file is
present): build all the grouped dicts from the table and assemble the
pair-property index. -/
def compute_props (sif_df : List SifRow) : Option PropsMap :=
  get_pair_properties (dir_dict sif_df)
    (get_nested_dict (dir_ev_count_dict sif_df))
    (get_nested_dict (rev_dir_count_dict sif_df))
    (get_nested_dict (undir_count_dict sif_df))
    (get_nested_dict (hash_type_td sif_df))
    (pair_entity_mapping (ns_id_name_tups sif_df))

/-- generate_props with its file I/O made explicit: has_props_file says
whether a props_file path was passed, and props_file is the content of that
file when it exists (pickle serialization is assumed faithful, so the file
state is just the stored map).  Returns the property index together with the
file state after the call; none models an uncaught exception, in which case
nothing is saved. -/
def generate_props (sif_df : List SifRow) (has_props_file : Bool)
    (props_file : Option PropsMap) : Option (PropsMap × Option PropsMap) :=
  if has_props_file then
    match props_file with
    | some properties => some (properties, some properties)
    | none => (compute_props sif_df).map (fun p => (p, some p))
  else
    (compute_props sif_df).map (fun p => (p, none))

/-- The property-building part of the generate pipeline: filter the table to
HGNC rows, then run generate_props on the filtered table. -/
def generate_sif_props (sif_df : List SifRow) (has_props_file : Bool)
    (props_file : Option PropsMap) : Option (PropsMap × Option PropsMap) :=
  generate_props (filter_to_hgnc sif_df) has_props_file props_file

/-- One row of the GO annotation file, with the columns genes_by_go_id
reads: DB, DB_ID, DB_Symbol, Qualifier, GO_ID (the remaining GAF columns
are never consulted). -/
structure GoaRow where
  db : String
  db_id : String
  db_symbol : String
  qualifier : String
  go_id : String
deriving DecidableEq

/-- The qualifier mask of genes_by_go_id exactly as written in the source:
goa_df[goa_df.Qualifier.str.startswith(NOT)] KEEPS the rows whose qualifier
starts with NOT (despite the comment announcing that negative evidence is
filtered out). -/
def goa_filtered (rows : List GoaRow) : List GoaRow :=
  rows.filter (fun r => str_startswith r.qualifier "NOT")

/-- The inner dict of the groupby on GO_ID aggregating DB_ID into a list,
over the qualifier-masked rows: GO id to the list of DB ids of its rows. -/
def up_mapping_inner (rows : List GoaRow) : List (String × List String) :=
  (dedupFirst ((goa_filtered rows).map (fun r => r.go_id))).map (fun g =>
    (g, ((goa_filtered rows).filter (fun r => r.go_id == g)).map
      (fun r => r.db_id)))

/-- up_mapping of the source, line 277: groupby(GO_ID).agg(DB_ID tolist)
followed by a bare DataFrame.to_dict().  to_dict() returns the dict keyed
by COLUMN NAME, column to (index to value) — the source does NOT apply the
list(...values())[0] unwrap it uses for hash_type_td at lines 204-209 — so
the resulting dict is the singleton mapping the column name DB_ID to the
inner (GO id to DB-id list) dict. -/
def up_mapping (rows : List GoaRow) : List (String × List (String × List String)) :=
  [("DB_ID", up_mapping_inner rows)]

/-- genes_by_go_id of the source: iterate the items of the column-wrapped
up_mapping dict — so the loop variable named go_id takes the single value
DB_ID (the column name), and gene_list is the inner dict, whose iteration
(for up_id in gene_list) yields its KEYS, i.e. the GO ids themselves.
Those GO-id strings are handed to the uniprot client (an external
collaborator, passed here as a function; strings that translate to None
are dropped), the results are collected into a set (modelled as a
first-occurrence deduplicated list), and the entry is kept only when the
resulting set is non-empty. -/
def genes_by_go_id (rows : List GoaRow) (get_gene_name : String → Option String) :
    List (String × List String) :=
  (up_mapping rows).filterMap (fun e =>
    let gene_names := dedupFirst ((e.2.map (fun p => p.1)).filterMap get_gene_name)
    if gene_names.isEmpty then none else some (e.1, gene_names))

/-- NetworkInput as the spec describes the per-term output of the selection
step: the term, its gene set, and the induced pair-property subset.  Used
only to state what build_networks fails to produce. -/
structure NetworkInput where
  term_id : String
  gene_set : List String
  pair_property_subset : PropsMap
deriving DecidableEq

/-- build_networks of the source: its body is a bare pass, so it constructs
nothing and returns None regardless of its inputs; modelled as none (no list
of NetworkInput records is ever produced). -/
def build_networks (go2genes_map : List (String × List String))
    (pair_props : PropsMap) : Option (List NetworkInput) :=
  none

/-! Concrete inputs used by the claim theorems below. -/

/-- A statement-table row realizing Scenario 1 of the spec: directed type
Activation, subject A, object B, evidence count 3. -/
def c1_row : SifRow := ⟨"HGNC", "1", "A", "HGNC", "2", "B", "Activation", 111, 3⟩

/-- Scenario 1 of the spec: a table of two rows carrying the same statement
hash. -/
def c1_table : List SifRow := [c1_row, c1_row]

/-- Annotation rows for one term, one positively qualified row (gene P1) and
one negated row (gene P2). -/
def c2_rows : List GoaRow :=
  [⟨"UniProtKB", "P1", "S1", "involved_in", "GO:0000001"⟩,
   ⟨"UniProtKB", "P2", "S2", "NOT|involved_in", "GO:0000001"⟩]

/-- A concrete UniProt-to-gene-name translation: P1 to G1, P2 to G2. -/
def c2_gene_name (up_id : String) : Option String :=
  if up_id == "P1" then some "G1" else if up_id == "P2" then some "G2" else none

/-- Scenario 4 of the spec: one annotation row each for the child term
(gene G1) and the parent term (gene G2); the ontology hierarchy carries the
edge child to parent.  The qualifiers start with NOT so that the rows
survive the qualifier mask the source actually applies. -/
def c3_rows : List GoaRow :=
  [⟨"UniProtKB", "P1", "S1", "NOT|involved_in", "GO:child"⟩,
   ⟨"UniProtKB", "P2", "S2", "NOT|involved_in", "GO:parent"⟩]

/-- UniProt-to-gene-name translation for the Scenario 4 rows. -/
def c3_gene_name (up_id : String) : Option String :=
  if up_id == "P1" then some "G1" else if up_id == "P2" then some "G2" else none

/-- A translator that (artificially) returns a gene name for the GO-id
string GO:child — the kind of input genes_by_go_id actually passes to the
client — used to exhibit a non-empty output of the function as written. -/
def c3_dbid_ggn (up_id : String) : Option String :=
  if up_id == "GO:child" then some "G1" else none

/-- A concrete PairProperty for the pair (A, B). -/
def c4_pp : PairProperty :=
  ⟨⟨"HGNC", "1", "A"⟩, ⟨"HGNC", "2", "B"⟩, ("A", "B"), [("Activation", [111])],
   true, false, [("Activation", 3)], [], []⟩

/-- A pair-property index holding the pair (A, B). -/
def c4_pair_props : PropsMap := [(("A", "B"), c4_pp)]

/-- A term-to-genes map with one term whose gene set induces the non-empty
pair subset containing (A, B). -/
def c4_go2genes : List (String × List String) := [("GO:0000001", ["A", "B"])]

/-- A grouped dir_dict with two pairs: (A, B), whose members are resolvable,
and (C, D), whose members are missing from the entity dict. -/
def c5_dir_dict : List ((String × String) × (Bool × Bool)) :=
  [(("A", "B"), (true, false)), (("C", "D"), (true, false))]

/-- A type-hash dict holding both pairs of c5_dir_dict. -/
def c5_hashes : List ((String × String) × List (String × List Int)) :=
  [(("A", "B"), [("Activation", [1])]), (("C", "D"), [("Activation", [2])])]

/-- An entity dict resolving A and B but neither C nor D. -/
def c5_entities : List (String × (String × String)) :=
  [("A", ("HGNC", "1")), ("B", ("HGNC", "2"))]

/-- A table in which gene name X occurs first with identity (HGNC, 1) and
later with identity (UP, P1). -/
def c6_rows : List SifRow :=
  [⟨"HGNC", "1", "X", "HGNC", "2", "Y", "Activation", 11, 1⟩,
   ⟨"UP", "P1", "X", "HGNC", "2", "Y", "Activation", 12, 1⟩]

/-- A one-row statement table used to exercise the cache round trip. -/
def c7_table : List SifRow := [⟨"HGNC", "1", "A", "HGNC", "2", "B", "Activation", 7, 2⟩]

/-- The pair-property index computed from c7_table. -/
def c7_props : PropsMap :=
  [(("A", "B"), ⟨⟨"HGNC", "1", "A"⟩, ⟨"HGNC", "2", "B"⟩, ("A", "B"),
    [("Activation", [7])], true, false, [("Activation", 2)], [], []⟩)]

/-- Annotation rows for two terms: GO:0000001 with translatable gene P2 and
GO:0000002 whose only gene P3 has no translation. -/
def c8_rows : List GoaRow :=
  [⟨"UniProtKB", "P2", "S2", "NOT|involved_in", "GO:0000001"⟩,
   ⟨"UniProtKB", "P3", "S3", "NOT|involved_in", "GO:0000002"⟩]

/-- A translator that (artificially) returns a gene name for the GO-id
string GO:0000001 — the kind of input genes_by_go_id actually passes to
the client — so that the function as written produces a non-empty map. -/
def c8_colkey_ggn (up_id : String) : Option String :=
  if up_id == "GO:0000001" then some "G2" else none

/-- A statement table with one all-HGNC row and one row whose subject
namespace is FPLX (dropped by the HGNC filter). -/
def c10_table : List SifRow :=
  [⟨"HGNC", "1", "A", "HGNC", "2", "B", "Activation", 5, 1⟩,
   ⟨"FPLX", "X", "P", "HGNC", "2", "B", "Activation", 6, 1⟩]

/-- The PairProperty the pipeline computes for (A, B) from c10_table. -/
def c10_pp : PairProperty :=
  ⟨⟨"HGNC", "1", "A"⟩, ⟨"HGNC", "2", "B"⟩, ("A", "B"),
   [("Activation", [5])], true, false, [("Activation", 1)], [], []⟩

/-- The pair-property index the pipeline computes from c10_table. -/
def c10_props : PropsMap := [(("A", "B"), c10_pp)]

/-! Helper lemmas. -/

/-- Every element of the deduplicated list occurs in the list it came from. -/
theorem mem_of_mem_dedupFirstAux [BEq α] (l : List α) (a : α) :
    ∀ seen : List α, a ∈ dedupFirstAux seen l → a ∈ l := by
  induction l with
  | nil => intro seen h; simp [dedupFirstAux] at h
  | cons b t ih =>
    intro seen h
    rw [dedupFirstAux] at h
    split at h
    · exact List.mem_cons_of_mem _ (ih _ h)
    · rcases List.mem_cons.mp h with h1 | h1
      · exact h1 ▸ List.mem_cons_self _ _
      · exact List.mem_cons_of_mem _ (ih _ h1)

/-- Every element of the deduplicated list occurs in the original list. -/
theorem mem_of_mem_dedupFirst [BEq α] (l : List α) (a : α)
    (h : a ∈ dedupFirst l) : a ∈ l :=
  mem_of_mem_dedupFirstAux l a [] h

/-- Looking up the key just inserted yields the inserted value. -/
theorem lookup_dictInsert_self [BEq κ] [LawfulBEq κ] (d : List (κ × ν)) (k : κ) (x : ν) :
    List.lookup k (dictInsert d k x) = some x := by
  induction d with
  | nil => simp [dictInsert, List.lookup_cons]
  | cons e t ih =>
    obtain ⟨k1, v1⟩ := e
    rw [dictInsert]
    by_cases he : (k1 == k) = true
    · rw [if_pos (by simpa using he)]
      exact List.lookup_cons_self
    · rw [if_neg (by simpa using he)]
      rw [List.lookup_cons]
      have hne : k1 ≠ k := by simpa using he
      have hkk : (k == k1) = false := beq_eq_false_iff_ne.mpr (Ne.symm hne)
      rw [hkk]
      exact ih

/-- A successful lookup after a dict insertion comes either from the
inserted entry or from the original dict. -/
theorem lookup_dictInsert_or [BEq κ] [LawfulBEq κ] (d : List (κ × ν)) (k1 : κ) (x : ν)
    (k : κ) (v : ν) (h : List.lookup k (dictInsert d k1 x) = some v) :
    (k = k1 ∧ v = x) ∨ List.lookup k d = some v := by
  induction d with
  | nil =>
    rw [dictInsert, List.lookup_cons] at h
    cases hk : (k == k1) with
    | true => rw [hk] at h; exact Or.inl ⟨eq_of_beq hk, (Option.some.inj h).symm⟩
    | false => rw [hk] at h; simp at h
  | cons e t ih =>
    obtain ⟨ek, ev⟩ := e
    rw [dictInsert] at h
    by_cases hek : (ek == k1) = true
    · rw [if_pos (by simpa using hek)] at h
      rw [List.lookup_cons] at h
      cases hk : (k == k1) with
      | true => rw [hk] at h; exact Or.inl ⟨eq_of_beq hk, (Option.some.inj h).symm⟩
      | false =>
        rw [hk] at h
        right
        rw [List.lookup_cons]
        have hekk : ek = k1 := eq_of_beq hek
        have h1 : k ≠ k1 := by simpa using hk
        have hkek : (k == ek) = false := by
          rw [hekk]
          exact beq_eq_false_iff_ne.mpr h1
        rw [hkek]
        exact h
    · rw [if_neg (by simpa using hek)] at h
      rw [List.lookup_cons] at h
      cases hk : (k == ek) with
      | true =>
        rw [hk] at h
        right
        rw [List.lookup_cons, hk]
        exact h
      | false =>
        rw [hk] at h
        rcases ih h with h1 | h1
        · exact Or.inl h1
        · right
          rw [List.lookup_cons, hk]
          exact h1

/-- A successful lookup in a dict built by repeated insertion comes either
from one of the inserted tuples or from the starting dict. -/
theorem lookup_foldl_dictInsert_or (tups : List (String × String × String))
    (n : String) (v : String × String) :
    ∀ d0 : List (String × (String × String)),
      List.lookup n (tups.foldl (fun d t => dictInsert d t.2.2 (t.1, t.2.1)) d0) = some v →
      (v.1, v.2, n) ∈ tups ∨ List.lookup n d0 = some v := by
  induction tups with
  | nil => intro d0 h; exact Or.inr (by simpa using h)
  | cons t ts ih =>
    intro d0 h
    rw [List.foldl_cons] at h
    rcases ih (dictInsert d0 t.2.2 (t.1, t.2.1)) h with hm | hl
    · exact Or.inl (List.mem_cons_of_mem _ hm)
    · rcases lookup_dictInsert_or _ _ _ _ _ hl with ⟨hk, hv⟩ | hd
      · left
        subst hk
        subst hv
        exact List.mem_cons_self _ _
      · exact Or.inr hd

/-- The value recorded for a name in the entity mapping comes from one of
the identity tuples carrying that name. -/
theorem pair_entity_mapping_lookup_mem (tups : List (String × String × String))
    (n : String) (v : String × String)
    (h : List.lookup n (pair_entity_mapping tups) = some v) : (v.1, v.2, n) ∈ tups := by
  rcases lookup_foldl_dictInsert_or tups n v [] h with hm | hl
  · exact hm
  · simp at hl

/-- Rows surviving the HGNC filter are rows of the table with both agent
namespaces HGNC. -/
theorem filter_to_hgnc_mem (sif_df : List SifRow) (r : SifRow)
    (h : r ∈ filter_to_hgnc sif_df) :
    r ∈ sif_df ∧ r.agA_ns = "HGNC" ∧ r.agB_ns = "HGNC" := by
  rw [filter_to_hgnc, List.mem_filter] at h
  refine ⟨h.1, ?_, ?_⟩
  · have := h.2
    simp only [Bool.and_eq_true, beq_iff_eq] at this
    exact this.1
  · have := h.2
    simp only [Bool.and_eq_true, beq_iff_eq] at this
    exact this.2

/-- Every identity tuple collected from the HGNC-filtered table carries the
namespace HGNC. -/
theorem ns_id_name_tups_hgnc (sif_df : List SifRow) (tp : String × String × String)
    (h : tp ∈ ns_id_name_tups (filter_to_hgnc sif_df)) : tp.1 = "HGNC" := by
  rw [ns_id_name_tups] at h
  have h2 := mem_of_mem_dedupFirst _ _ h
  rcases List.mem_append.mp h2 with hA | hB
  · rcases List.mem_map.mp hA with ⟨r, hr, he⟩
    rw [← he]
    exact (filter_to_hgnc_mem sif_df r hr).2.1
  · rcases List.mem_map.mp hB with ⟨r, hr, he⟩
    rw [← he]
    exact (filter_to_hgnc_mem sif_df r hr).2.2

/-- Every entry of a successfully assembled pair-property index got its two
entities by looking the pair's member names up in the entity dict. -/
theorem get_pair_properties_entity_src
    (dir_ec rev_ec undir_ec : List ((String × String) × List (String × Nat)))
    (th : List ((String × String) × List (String × List Int)))
    (ped : List (String × (String × String))) :
    ∀ (dd : List ((String × String) × (Bool × Bool))) (props : PropsMap),
      get_pair_properties dd dir_ec rev_ec undir_ec th ped = some props →
      ∀ e ∈ props, ∃ va vb, List.lookup e.1.1 ped = some va ∧
        List.lookup e.1.2 ped = some vb ∧
        e.2.a = ⟨va.1, va.2, e.1.1⟩ ∧ e.2.b = ⟨vb.1, vb.2, e.1.2⟩ := by
  intro dd
  induction dd with
  | nil =>
    intro props h e he
    rw [get_pair_properties] at h
    obtain rfl := Option.some.inj h
    simp at he
  | cons hd tl ih =>
    intro props h e he
    obtain ⟨pr, flags⟩ := hd
    rw [get_pair_properties] at h
    rcases Option.bind_eq_some.mp h with ⟨thd, h1, h⟩
    rcases Option.bind_eq_some.mp h with ⟨aent, h2, h⟩
    rcases Option.bind_eq_some.mp h with ⟨bent, h3, h⟩
    rcases Option.map_eq_some'.mp h with ⟨m, hrec, hm⟩
    subst hm
    rcases List.mem_cons.mp he with rfl | he2
    · exact ⟨aent, bent, h2, h3, rfl, rfl⟩
    · exact ih m hrec e he2

/-- If any pair of dir_dict has a member name (either the first or the
second) missing from the entity dict, assembling the index fails entirely
(the Python KeyError). -/
theorem get_pair_properties_unresolved
    (dir_ec rev_ec undir_ec : List ((String × String) × List (String × Nat)))
    (th : List ((String × String) × List (String × List Int)))
    (ped : List (String × (String × String))) :
    ∀ dd : List ((String × String) × (Bool × Bool)),
      (∃ e, e ∈ dd ∧
        (List.lookup e.1.1 ped = none ∨ List.lookup e.1.2 ped = none)) →
      get_pair_properties dd dir_ec rev_ec undir_ec th ped = none := by
  intro dd
  induction dd with
  | nil => rintro ⟨e, he, _⟩; simp at he
  | cons hd tl ih =>
    rintro ⟨e, he, hl⟩
    obtain ⟨pr, flags⟩ := hd
    rw [get_pair_properties]
    rcases List.mem_cons.mp he with rfl | he2
    · rcases hl with hl | hl
      · cases h1 : List.lookup pr th with
        | none => rfl
        | some thd => rw [hl]; rfl
      · cases h1 : List.lookup pr th with
        | none => rfl
        | some thd =>
          cases h2 : List.lookup pr.1 ped with
          | none => rfl
          | some aent => rw [hl]; rfl
    · have hrec := ih ⟨e, he2, hl⟩
      cases h1 : List.lookup pr th with
      | none => rfl
      | some thd =>
        cases h2 : List.lookup pr.1 ped with
        | none => rfl
        | some aent =>
          cases h3 : List.lookup pr.2 ped with
          | none => rfl
          | some bent => rw [hrec]; rfl

/-- The term-to-genes map as written is either empty or the singleton map
keyed by the literal column name DB_ID with a non-empty gene-name set: the
column-wrapped to_dict() of line 277 leaves no way for a GO term to become
a key of the result. -/
theorem genes_by_go_id_cases (rows : List GoaRow) (ggn : String → Option String) :
    genes_by_go_id rows ggn = [] ∨
    ∃ names, genes_by_go_id rows ggn = [("DB_ID", names)] ∧ names ≠ [] := by
  rw [genes_by_go_id, up_mapping]
  by_cases h : dedupFirst (((up_mapping_inner rows).map (fun p => p.1)).filterMap ggn) = []
  · left
    simp only [List.filterMap_cons, List.filterMap_nil, h]
    rfl
  · right
    refine ⟨dedupFirst (((up_mapping_inner rows).map (fun p => p.1)).filterMap ggn), ?_, h⟩
    simp only [List.filterMap_cons, List.filterMap_nil]
    rw [if_neg (by simpa [List.isEmpty_iff] using h)]

/-! Claim theorems. -/

/-- Claim C1, counterexample: on the two-row same-hash Scenario 1 table the
aggregation yields forward Activation = 6, not 3 as the claim states — the
hash is counted once per row, not once. -/
theorem C1_counterexample :
    ((compute_props c1_table).bind (fun m => List.lookup ("A", "B") m)).map
        (fun pp => List.lookup "Activation" pp.directed_evidence_count) =
      some (some 6) ∧ (6 : Nat) ≠ 3 := by decide

/-- Claim C1 (amended): evidence counts are summed once per ROW with no
deduplication by statement hash; for the Scenario 1 table of two identical
rows (same hash, directed type Activation, subject A, object B, evidence
count 3 each) the pair (A, B) gets forward Activation = 6, with the hash
listed once per row, directed = true and reverse_directed = false. -/
theorem C1_per_row_counting :
    (compute_props c1_table).bind (fun m => List.lookup ("A", "B") m) =
      some ⟨⟨"HGNC", "1", "A"⟩, ⟨"HGNC", "2", "B"⟩, ("A", "B"),
        [("Activation", [111, 111])], true, false, [("Activation", 6)], [], []⟩ := by
  decide

/-- Claim C2 (code bug): the qualifier mask keeps exactly the rows whose
qualifier starts with NOT instead of discarding them — on a term with one
positive row (gene G1 via P1) and one negated row (gene G2 via P2), the
rows surviving the mask before any gene set is computed are exactly the
negated one; downstream, the column-wrapped to_dict() of line 277 then
feeds GO ids to the translator, so the returned map at this input is
empty. -/
theorem C2_not_rows_kept :
    goa_filtered c2_rows = [⟨"UniProtKB", "P2", "S2", "NOT|involved_in", "GO:0000001"⟩] ∧
    genes_by_go_id c2_rows c2_gene_name = [] := by decide

/-- Claim C3, counterexample: with the Scenario 4 annotations (edge
T_child to T_parent, direct genes G1 on the child and G2 on the parent) the
map assigns T_parent nothing at all — the returned map is empty, so the
claimed assignment of the set containing G1 and G2 to T_parent is false,
and no closure relationship between the two terms is realized. -/
theorem C3_counterexample :
    genes_by_go_id c3_rows c3_gene_name = [] ∧
    List.lookup "GO:parent" (genes_by_go_id c3_rows c3_gene_name) = none ∧
    List.lookup "GO:child" (genes_by_go_id c3_rows c3_gene_name) = none := by decide

/-- Claim C3 (amended): the term-to-genes map is never keyed by GO terms at
all, let alone closed under the hierarchy: the column-wrapped to_dict() of
line 277 makes DB_ID (the column name) the only possible key, with a
non-empty name set, and genes_by_go_id never consults the ontology graph;
at the Scenario 4 input the map is empty, with neither T_parent nor
T_child as a key. -/
theorem C3_no_closure :
    (genes_by_go_id c3_rows c3_gene_name = [] ∧
     List.lookup "GO:parent" (genes_by_go_id c3_rows c3_gene_name) = none ∧
     List.lookup "GO:child" (genes_by_go_id c3_rows c3_gene_name) = none) ∧
    (∀ rows ggn, ∀ e ∈ genes_by_go_id rows ggn,
      e.1 = "DB_ID" ∧ e.2 ≠ ([] : List String)) := by
  refine ⟨by decide, fun rows ggn e he => ?_⟩
  rcases genes_by_go_id_cases rows ggn with h | ⟨names, h, hne⟩
  · rw [h] at he
    simp at he
  · rw [h] at he
    rcases List.mem_cons.mp he with rfl | he2
    · exact ⟨rfl, hne⟩
    · simp at he2

/-- Claim C3, witness for the amended theorem: exhibits an actual entry of
genes_by_go_id (using a translator that returns a name for a GO-id string,
the inputs the code really passes on) and confirms its key is the column
name DB_ID with a non-empty set. -/
theorem C3_no_closure_witness :
    (("DB_ID", ["G1"]) : String × List String).1 = "DB_ID" ∧
    (("DB_ID", ["G1"]) : String × List String).2 ≠ ([] : List String) :=
  C3_no_closure.2 c3_rows c3_dbid_ggn ("DB_ID", ["G1"]) (by decide)

/-- Claim C4 (code bug): build_networks constructs nothing — it returns
None even for a term-to-genes map whose single term induces a non-empty
pair subset of the property index. -/
theorem C4_no_networks_built :
    build_networks c4_go2genes c4_pair_props = none ∧
    (List.lookup ("A", "B") c4_pair_props).isSome = true := by decide

/-- Claim C5, counterexample: with the pair (A, B) fully resolvable and the
pair (C, D) unresolvable, the aggregation returns none — it aborts entirely
instead of returning the properties of (A, B) without (C, D). -/
theorem C5_counterexample :
    get_pair_properties c5_dir_dict [] [] [] c5_hashes c5_entities = none := by decide

/-- Claim C5 (amended): if any canonical pair of the grouped data has a
member gene name — either the first or the second of the pair — missing
from the entity dict, get_pair_properties fails as a whole (the KeyError
aborts the aggregation); no partial mapping of the other pairs is
returned. -/
theorem C5_unresolved_aborts
    (dd : List ((String × String) × (Bool × Bool)))
    (dir_ec rev_ec undir_ec : List ((String × String) × List (String × Nat)))
    (th : List ((String × String) × List (String × List Int)))
    (ped : List (String × (String × String)))
    (h : ∃ e, e ∈ dd ∧
      (List.lookup e.1.1 ped = none ∨ List.lookup e.1.2 ped = none)) :
    get_pair_properties dd dir_ec rev_ec undir_ec th ped = none :=
  get_pair_properties_unresolved dir_ec rev_ec undir_ec th ped dd h

/-- Claim C5, witness for the amended theorem, exercising the
second-member case: a one-pair dir_dict for the pair (A, E) whose first
member A resolves but whose second member E is unresolvable makes the
aggregation return none. -/
theorem C5_unresolved_aborts_witness :
    get_pair_properties [(("A", "E"), (true, false))] [] [] [] c5_hashes c5_entities = none :=
  C5_unresolved_aborts [(("A", "E"), (true, false))] [] [] [] c5_hashes c5_entities
    ⟨(("A", "E"), (true, false)), by decide, Or.inr (by decide)⟩

/-- Claim C6, counterexample: gene X occurs first with identity (HGNC, 1)
and later with identity (UP, P1); the recorded entity is (UP, P1), the
LAST-observed mapping, not the first-observed one as the claim states, and
the entity stored in the output PairProperty is the (UP, P1) one. -/
theorem C6_counterexample :
    List.lookup "X" (pair_entity_mapping (ns_id_name_tups c6_rows)) = some ("UP", "P1") ∧
    ("UP", "P1") ≠ ("HGNC", "1") ∧
    ((compute_props c6_rows).bind (fun m => List.lookup ("X", "Y") m)).map
      (fun pp => pp.a) = some ⟨"UP", "P1", "X"⟩ := by decide

/-- Claim C6 (amended): the run does not fail on an ambiguous name, and the
entity recorded for a name is the one from the tuple iterated LAST in the
(unspecified) set-iteration order — under the modelled insertion order, the
last-observed (namespace, id) mapping, because the dict comprehension
overwrites earlier entries. -/
theorem C6_last_observed_wins (ts : List (String × String × String)) (ns i n : String) :
    List.lookup n (pair_entity_mapping (ts ++ [(ns, i, n)])) = some (ns, i) := by
  rw [pair_entity_mapping, List.foldl_append, List.foldl_cons, List.foldl_nil]
  exact lookup_dictInsert_self _ _ _

/-- Claim C7: cache round trip — if a run with a props-file path and no
existing file computes an index p and persists it, a second run over the
same table with the persisted file present returns exactly p and the same
file state. -/
theorem C7_cache_round_trip (sif_df : List SifRow) (p : PropsMap) (st : Option PropsMap)
    (h : generate_props sif_df true none = some (p, st)) :
    generate_props sif_df true st = some (p, st) := by
  rw [generate_props, if_pos rfl] at h
  cases hc : compute_props sif_df with
  | none => rw [hc] at h; simp at h
  | some q =>
    rw [hc] at h
    simp only [Option.map_some'] at h
    obtain ⟨h1, h2⟩ := Prod.mk.injEq .. |>.mp (Option.some.inj h)
    subst h1
    subst h2
    rw [generate_props, if_pos rfl]

/-- Claim C7, witness: the round trip at the concrete one-row table. -/
theorem C7_cache_round_trip_witness :
    generate_props c7_table true (some c7_props) = some (c7_props, some c7_props) :=
  C7_cache_round_trip c7_table c7_props (some c7_props) (by decide)

/-- Claim C8: every gene set stored in the term-to-genes map is non-empty,
and every term is absent from the map as a key (so, in particular, a term
that ends up with no associated genes is simply absent, and its presence
in the input raises no error): the only key the map can carry is the
literal column name DB_ID, which no GO term identifier equals. -/
theorem C8_empty_terms_absent (rows : List GoaRow) (ggn : String → Option String)
    (g : String) :
    (∀ e ∈ genes_by_go_id rows ggn, e.2 ≠ ([] : List String)) ∧
    (g ≠ "DB_ID" → List.lookup g (genes_by_go_id rows ggn) = none) := by
  constructor
  · intro e he
    rcases genes_by_go_id_cases rows ggn with h | ⟨names, h, hne⟩
    · rw [h] at he
      simp at he
    · rw [h] at he
      rcases List.mem_cons.mp he with rfl | he2
      · exact hne
      · simp at he2
  · intro hg
    rcases genes_by_go_id_cases rows ggn with h | ⟨names, h, _⟩
    · rw [h]
      simp
    · rw [h, List.lookup_cons]
      rw [beq_eq_false_iff_ne.mpr hg]
      simp

/-- Claim C8, witness: a translator that returns a name for the GO-id
string GO:0000001 gives the map its single entry, whose stored set is
non-empty, and the gene-less input term GO:0000002 is absent as a key. -/
theorem C8_empty_terms_absent_witness :
    (["G2"] : List String) ≠ ([] : List String) ∧
    List.lookup "GO:0000002" (genes_by_go_id c8_rows c8_colkey_ggn) = none :=
  ⟨(C8_empty_terms_absent c8_rows c8_colkey_ggn "GO:0000002").1
     ("DB_ID", ["G2"]) (by decide),
   (C8_empty_terms_absent c8_rows c8_colkey_ggn "GO:0000002").2 (by decide)⟩

/-- Claim C9: when a properties file exists, generate_props returns exactly
its contents and ignores the statement table — two runs with the same file
contents and arbitrarily different tables return identical mappings, and no
aggregation over the table is performed (the file state is returned as is). -/
theorem C9_cache_ignores_table (sif1 sif2 : List SifRow) (p : PropsMap) :
    generate_props sif1 true (some p) = some (p, some p) ∧
    generate_props sif1 true (some p) = generate_props sif2 true (some p) :=
  ⟨rfl, rfl⟩

/-- Claim C10: every row surviving the HGNC filter has both agent
namespaces HGNC, and every Entity stored in the pair-property index the
pipeline computes (fresh, no cache file) has namespace HGNC. -/
theorem C10_hgnc_only (sif_df : List SifRow) :
    (∀ r ∈ filter_to_hgnc sif_df, r.agA_ns = "HGNC" ∧ r.agB_ns = "HGNC") ∧
    (∀ props st, generate_sif_props sif_df false none = some (props, st) →
      ∀ e ∈ props, e.2.a.ns = "HGNC" ∧ e.2.b.ns = "HGNC") := by
  constructor
  · intro r hr
    exact (filter_to_hgnc_mem sif_df r hr).2
  · intro props st h e he
    rw [generate_sif_props, generate_props] at h
    rw [if_neg (by simp)] at h
    cases hc : compute_props (filter_to_hgnc sif_df) with
    | none => rw [hc] at h; simp at h
    | some q =>
      rw [hc] at h
      simp only [Option.map_some'] at h
      obtain ⟨h1, h2⟩ := Prod.mk.injEq .. |>.mp (Option.some.inj h)
      subst h1
      unfold compute_props at hc
      obtain ⟨va, vb, hva, hvb, hea, heb⟩ :=
        get_pair_properties_entity_src _ _ _ _ _ _ _ hc e he
      have hta := pair_entity_mapping_lookup_mem _ _ _ hva
      have htb := pair_entity_mapping_lookup_mem _ _ _ hvb
      have hnsa := ns_id_name_tups_hgnc sif_df _ hta
      have hnsb := ns_id_name_tups_hgnc sif_df _ htb
      constructor
      · rw [hea]
        exact hnsa
      · rw [heb]
        exact hnsb

/-- Claim C10, witness: both entities of the pair computed from the mixed
c10 table carry the namespace HGNC. -/
theorem C10_hgnc_only_witness :
    c10_pp.a.ns = "HGNC" ∧ c10_pp.b.ns = "HGNC" :=
  (C10_hgnc_only c10_table).2 c10_props none (by decide) (("A", "B"), c10_pp) (by decide)
